import Mathlib

/-!
Verification of `ShardingConnectionHook` (src/mongo/s/client/sharding_connection_hook.cpp).

The hook has three entry points invoked by the connection pool:
`onCreate`, `onDestroy`, `onRelease`.  We embed the hook shallowly:

* the connection (`DBClientBase`) becomes an explicit state record that
  tracks the observable installations and pooling state the claims
  mention (metadata reader/writer registrations, attached query
  handlers, cached shard version, held/released secondary
  sub-connections);
* the external collaborators (authorization manager, the backend's
  reply to the `ismaster` probe, the catalog-manager trigger, the
  indeterminate value of an uninitialized local) become an environment
  record of oracles;
* `uassert`/`uassertStatusOK` throws become an `AdmissionError` result;
* the catalog-manager trigger calls are recorded as a trace so that
  "invoked exactly once with arguments (...)" is a statement about a
  list.
-/

namespace ShardingHook

/-- BSON values, restricted to the shapes `onCreate` inspects: integer
numbers, strings, booleans, and a catch-all for every other type. -/
inductive BSONValue where
  | int (n : Int)
  | str (s : String)
  | boolean (b : Bool)
  | other

/-- A BSON object as an association list of field name / value pairs. -/
abbrev BSONObj := List (String × BSONValue)

/-- First value bound to a field name, `none` when the field is absent
(the `eoo` element in the C++ API). -/
def bsonLookup (o : BSONObj) (f : String) : Option BSONValue :=
  (o.find? (fun p => p.1 = f)).map (fun p => p.2)

/-- Modelled from the spec: `BSONElement::trueValue()` (the BSON library
is not under src/).  Numbers are true when nonzero, booleans are
themselves, absent fields are false, every other present type counts as
true. -/
def trueValue : Option BSONValue → Bool
  | none => false
  | some (.int n) => n ≠ 0
  | some (.str _) => true
  | some (.boolean b) => b
  | some .other => true

/-- Error codes surfaced by the modelled collaborators. -/
inductive ErrorCode where
  | noSuchKey
  | typeMismatch
  | unknownError
  | commandResultSchemaViolation
  | fromResponse (n : Int)

/-- A collaborator `Status`: OK or an error code. -/
inductive Status where
  | ok
  | error (code : ErrorCode)

/-- Modelled from the spec: `getStatusFromCommandResult`
(src/mongo/rpc/get_status_from_command_result.cpp is not under src/).
A missing `ok` field is a schema violation; a truthy `ok` is OK;
otherwise the error code comes from the response's `code` field,
defaulting to `UnknownError`. -/
def getStatusFromCommandResult (o : BSONObj) : Status :=
  match bsonLookup o "ok" with
  | none => .error .commandResultSchemaViolation
  | some v =>
    if trueValue (some v) then .ok
    else
      .error (match bsonLookup o "code" with
              | some (.int n) => if n = 0 then .unknownError else .fromResponse n
              | _ => .unknownError)

/-- Modelled from the spec: `bsonExtractIntegerField`
(src/mongo/bson/util/bson_extract.cpp is not under src/).  Absent field:
`NoSuchKey`; present non-number: `TypeMismatch`; present integer:
success with the value.  The out-parameter is assigned only on success,
which the `Except` return models. -/
def bsonExtractIntegerField (o : BSONObj) (f : String) : Except ErrorCode Int :=
  match bsonLookup o f with
  | none => .error .noSuchKey
  | some (.int n) => .ok n
  | some _ => .error .typeMismatch

/-- Values of `ConnectionString::ConnectionType` distinguished by the hook:
`MASTER` (single node), `SYNC` (legacy config set), `SET` (replica
set), and a catch-all. -/
inductive ConnType where
  | MASTER
  | SYNC
  | SET
  | CUSTOM

/-- Enumeration `CatalogManager::ConfigServerMode`: `SCCC` is the legacy multi-node
mode (the spec's `LegacySet`, config-server mode number 0) and `CSRS`
the replica-set-based mode (the spec's `ReplicaSetBased`, number 1). -/
inductive ConfigServerMode where
  | SCCC
  | CSRS

/-- One invocation of
`ForwardingCatalogManager::scheduleReplaceCatalogManagerIfNeeded`,
recorded with its three arguments. -/
structure TriggerCall where
  mode : ConfigServerMode
  replicaSetName : String
  hostAndPort : String

/-- The observable state of a `DBClientBase` connection, as far as the
hook touches it.  `versionable` is the oracle for
`VersionManager::isVersionableCB`, `shardVersion` the cached shard
version cleared by `resetShardVersionCB`, and the two secondary lists
model the sub-connections a composite connection holds or has released
back to the pool. -/
structure ConnState where
  connType : ConnType
  serverAddress : String
  hostAndPort : String
  replyReadersInstalled : Nat
  requestWritersInstalled : Nat
  queryHandlersAttached : Nat
  versionable : Bool
  shardVersion : Option Nat
  heldSecondaries : List Nat
  releasedSecondaries : List Nat

/-- The external collaborators `onCreate` consults, as oracles:
whether authentication is enforced, whether
`authenticateInternalUser` succeeds, the backend's reply to the
`ismaster` probe, the status returned by the catalog-manager trigger,
and the indeterminate value an uninitialized `long long` local would
hold. -/
structure Env where
  authEnabled : Bool
  authSucceeds : Bool
  isMasterResponse : BSONObj
  triggerStatus : Status
  uninitLongLong : Int

/-- The hook itself: `_shardedConnections` captured at construction. -/
structure Hook where
  shardedConnections : Bool

/-- Errors with which `onCreate` can abort admission (the `uassert` /
`uassertStatusOK` throw sites).  `authenticationFailure` carries the
numeric assertion code 15847 and the backend's server address;
`protocolViolation` carries assertion code 28785 and the rejected
config-server mode number (the spec's *ProtocolViolation* error
kind). -/
inductive AdmissionError where
  | authenticationFailure (assertionCode : Nat) (serverAddress : String)
  | probeCommandFailure (code : ErrorCode)
  | protocolViolation (assertionCode : Nat) (modeNumber : Int)
  | modeTransitionFailure (code : ErrorCode)

/-- The outcome of one `onCreate` call: `none` result means admission
succeeded, `some e` means the call aborted with `e`; `conn` is the
connection state afterwards; `triggerCalls` the catalog-manager trigger
invocations made; `probesIssued` how many `ismaster` probe round trips
were run. -/
structure CreateOutcome where
  result : Option AdmissionError
  conn : ConnState
  triggerCalls : List TriggerCall
  probesIssued : Nat

/-- Continuation of the `MASTER` branch after the `configsvr`
extraction attempt: the `uassert(28785, ...)` 0/1 check on
`configServerModeNumber`, then the trigger call with the derived mode,
the `setName` string (empty when the field is absent or non-string),
and the backend's host and port; a non-OK trigger status is rethrown by
`uassertStatusOK`.  Returns the abort error (if any) and the
trigger-call trace. -/
def modeCheckAndTrigger (env : Env) (hostAndPort : String)
    (configServerModeNumber : Int) : Option AdmissionError × List TriggerCall :=
  if configServerModeNumber = 0 ∨ configServerModeNumber = 1 then
    let setName : String :=
      match bsonLookup env.isMasterResponse "setName" with
      | some (.str s) => s
      | _ => ""
    let call : TriggerCall :=
      { mode := if configServerModeNumber = 0 then .SCCC else .CSRS
        replicaSetName := setName
        hostAndPort := hostAndPort }
    match env.triggerStatus with
    | .ok => (none, [call])
    | .error c => (some (.modeTransitionFailure c), [call])
  else
    (some (.protocolViolation 28785 configServerModeNumber), [])

/-- The `MASTER` branch of `onCreate`: run the `ismaster` probe, on
command failure throw the status extracted from the result, otherwise
extract `configsvr`.  The source checks the extraction status only
against `NoSuchKey` (early return); on success the extracted value
flows into `modeCheckAndTrigger`, while any other extraction failure
falls through with the local `configServerModeNumber` never assigned,
so the later reads see the indeterminate `env.uninitLongLong`.  Returns
the abort error (if any) and the trigger-call trace. -/
def masterProbe (env : Env) (hostAndPort : String) :
    Option AdmissionError × List TriggerCall :=
  let resp := env.isMasterResponse
  let runCommandOk := trueValue (bsonLookup resp "ok")
  let cmdAbort : Option AdmissionError :=
    if runCommandOk then none
    else
      match getStatusFromCommandResult resp with
      | .ok => none
      | .error c => some (.probeCommandFailure c)
  match cmdAbort with
  | some e => (some e, [])
  | none =>
    match bsonExtractIntegerField resp "configsvr" with
    | .error .noSuchKey => (none, [])
    | .ok n => modeCheckAndTrigger env hostAndPort n
    | .error _ => modeCheckAndTrigger env hostAndPort env.uninitLongLong

/-- Embedding of `ShardingConnectionHook::onCreate`.  Authentication first (abort
with assertion 15847 naming the server address on failure); then the
reply-metadata reader when `_shardedConnections`, then the
request-metadata writer unconditionally; then the per-kind step: `SYNC`
attaches an `SCCFastQueryHandler`, `MASTER` runs the topology probe. -/
def onCreate (hook : Hook) (env : Env) (c : ConnState) : CreateOutcome :=
  if env.authEnabled && !env.authSucceeds then
    { result := some (.authenticationFailure 15847 c.serverAddress)
      conn := c, triggerCalls := [], probesIssued := 0 }
  else
    let c1 :=
      if hook.shardedConnections then
        { c with replyReadersInstalled := c.replyReadersInstalled + 1 }
      else c
    let c2 := { c1 with requestWritersInstalled := c1.requestWritersInstalled + 1 }
    match c2.connType with
    | .SYNC =>
      { result := none
        conn := { c2 with queryHandlersAttached := c2.queryHandlersAttached + 1 }
        triggerCalls := [], probesIssued := 0 }
    | .MASTER =>
      let pr := masterProbe env c2.hostAndPort
      { result := pr.1, conn := c2, triggerCalls := pr.2, probesIssued := 1 }
    | _ =>
      { result := none, conn := c2, triggerCalls := [], probesIssued := 0 }

/-- Embedding of `ShardingConnectionHook::onDestroy`: when the hook serves sharded
connections and the connection is versionable, clear its cached shard
version.  The body has no throw site, so the result is always `.ok`. -/
def onDestroy (hook : Hook) (c : ConnState) : Except AdmissionError ConnState :=
  .ok <|
    if hook.shardedConnections && c.versionable then
      { c with shardVersion := none }
    else c

/-- Modelled from the spec: `DBClientBase::reset` and its replica-set
override (not under src/) — release every held secondary sub-connection
back to the shared pool; a connection holding none is unchanged. -/
def resetConn (c : ConnState) : ConnState :=
  { c with heldSecondaries := []
           releasedSecondaries := c.releasedSecondaries ++ c.heldSecondaries }

/-- Embedding of `ShardingConnectionHook::onRelease`: `conn->reset()`.  No throw
site, so the result is always `.ok`. -/
def onRelease (c : ConnState) : Except AdmissionError ConnState :=
  .ok (resetConn c)

/-! Concrete sample inputs used by witnesses and counterexamples. -/

/-- A fresh single-node (`MASTER`) connection. -/
def conn0 : ConnState :=
  { connType := .MASTER
    serverAddress := "cfg.example.com:27019"
    hostAndPort := "cfg.example.com:27019"
    replyReadersInstalled := 0
    requestWritersInstalled := 0
    queryHandlersAttached := 0
    versionable := true
    shardVersion := some 5
    heldSecondaries := [3]
    releasedSecondaries := [] }

/-- Environment where authentication is enforced and the internal-user
authentication fails. -/
def envAuthFail : Env :=
  { authEnabled := true, authSucceeds := false, isMasterResponse := []
    triggerStatus := .ok, uninitLongLong := 0 }

/-- Successful probe response with no `configsvr` field. -/
def respNoCfg : BSONObj := [("ok", .int 1), ("ismaster", .boolean true)]

/-- Successful probe response of a legacy config server in set `rs0`. -/
def respCfg0 : BSONObj :=
  [("ok", .int 1), ("configsvr", .int 0), ("setName", .str "rs0")]

/-- Successful probe response with the out-of-range `configsvr` value 7. -/
def respCfg7 : BSONObj := [("ok", .int 1), ("configsvr", .int 7)]

/-- Failed probe command result (`ok` is 0, error code 13). -/
def respFail : BSONObj :=
  [("ok", .int 0), ("code", .int 13), ("errmsg", .str "unauthorized")]

/-- Successful probe response whose `configsvr` field is a string, so
integer extraction fails with `TypeMismatch` rather than `NoSuchKey`. -/
def respCfgStr : BSONObj := [("ok", .int 1), ("configsvr", .str "yes")]

/-- Environment with authentication disabled, a given probe response, a
succeeding trigger, and a given indeterminate uninitialized value. -/
def envOkWith (resp : BSONObj) (uninit : Int) : Env :=
  { authEnabled := false, authSucceeds := true, isMasterResponse := resp
    triggerStatus := .ok, uninitLongLong := uninit }

end ShardingHook

/-! Theorems settling the claims. -/

namespace ShardingHook

/-- C1: for every connection, when authentication is enforced and the
internal-user authentication fails, `onCreate` aborts with the
assertion-15847 error carrying the backend's server address, the
connection state is unchanged (so neither the reply-metadata reader nor
the request-metadata writer is installed), no catalog-manager trigger
call is made, and no topology probe is issued. -/
theorem onCreate_auth_failure_aborts (hook : Hook) (env : Env) (c : ConnState)
    (hEnabled : env.authEnabled = true) (hFail : env.authSucceeds = false) :
    onCreate hook env c =
      { result := some (.authenticationFailure 15847 c.serverAddress)
        conn := c, triggerCalls := [], probesIssued := 0 } := by
  simp [onCreate, hEnabled, hFail]

/-- Witness for C1 at a concrete hook, environment and connection. -/
theorem onCreate_auth_failure_aborts_witness :
    onCreate { shardedConnections := true } envAuthFail conn0 =
      { result := some (.authenticationFailure 15847 conn0.serverAddress)
        conn := conn0, triggerCalls := [], probesIssued := 0 } :=
  onCreate_auth_failure_aborts { shardedConnections := true } envAuthFail conn0
    rfl rfl

/-- C3: for every single-node (`MASTER`) connection that passes the
authentication gate, whose probe command succeeds, and whose response
has no `configsvr` field, `onCreate` completes admission successfully
and the catalog-manager trigger is never invoked. -/
theorem onCreate_no_configsvr_no_trigger (hook : Hook) (env : Env) (c : ConnState)
    (hAuth : (env.authEnabled && !env.authSucceeds) = false)
    (hT : c.connType = .MASTER)
    (hOk : trueValue (bsonLookup env.isMasterResponse "ok") = true)
    (hNo : bsonLookup env.isMasterResponse "configsvr" = none) :
    (onCreate hook env c).result = none ∧
    (onCreate hook env c).triggerCalls = [] := by
  cases hSh : hook.shardedConnections <;>
    simp [onCreate, masterProbe, bsonExtractIntegerField, hAuth, hT, hOk, hNo, hSh]

/-- Witness for C3 at a concrete hook, environment and connection. -/
theorem onCreate_no_configsvr_no_trigger_witness :
    (onCreate { shardedConnections := true } (envOkWith respNoCfg 0) conn0).result = none ∧
    (onCreate { shardedConnections := true } (envOkWith respNoCfg 0) conn0).triggerCalls = [] :=
  onCreate_no_configsvr_no_trigger { shardedConnections := true }
    (envOkWith respNoCfg 0) conn0 rfl rfl rfl rfl

/-- C4: for every single-node (`MASTER`) connection that passes the
authentication gate, whose probe succeeds with `configsvr = 0` and
`setName = "rs0"`, a single `onCreate` call invokes the catalog-manager
trigger exactly once, with arguments (`SCCC` — the spec's `LegacySet`
mode — replica-set name `"rs0"`, and the backend's host and port),
while issuing exactly one probe. -/
theorem onCreate_configsvr0_trigger_once (hook : Hook) (env : Env) (c : ConnState)
    (hAuth : (env.authEnabled && !env.authSucceeds) = false)
    (hT : c.connType = .MASTER)
    (hOk : trueValue (bsonLookup env.isMasterResponse "ok") = true)
    (hCfg : bsonLookup env.isMasterResponse "configsvr" = some (.int 0))
    (hSet : bsonLookup env.isMasterResponse "setName" = some (.str "rs0")) :
    (onCreate hook env c).triggerCalls =
      [{ mode := .SCCC, replicaSetName := "rs0", hostAndPort := c.hostAndPort }] ∧
    (onCreate hook env c).probesIssued = 1 := by
  cases hE : env.triggerStatus <;> cases hSh : hook.shardedConnections <;>
    simp [onCreate, masterProbe, modeCheckAndTrigger, bsonExtractIntegerField,
          hAuth, hT, hOk, hCfg, hSet, hSh, hE]

/-- Witness for C4 at a concrete hook, environment and connection. -/
theorem onCreate_configsvr0_trigger_once_witness :
    (onCreate { shardedConnections := true } (envOkWith respCfg0 0) conn0).triggerCalls =
      [{ mode := .SCCC, replicaSetName := "rs0", hostAndPort := conn0.hostAndPort }] ∧
    (onCreate { shardedConnections := true } (envOkWith respCfg0 0) conn0).probesIssued = 1 :=
  onCreate_configsvr0_trigger_once { shardedConnections := true }
    (envOkWith respCfg0 0) conn0 rfl rfl rfl rfl rfl

/-- C5: for every single-node (`MASTER`) connection that passes the
authentication gate, whose probe succeeds with an integer `configsvr`
value that is neither 0 nor 1, `onCreate` fails with the
assertion-28785 protocol-violation error carrying that value, and the
catalog-manager trigger is not invoked. -/
theorem onCreate_configsvr_invalid_aborts (hook : Hook) (env : Env) (c : ConnState)
    (n : Int)
    (hAuth : (env.authEnabled && !env.authSucceeds) = false)
    (hT : c.connType = .MASTER)
    (hOk : trueValue (bsonLookup env.isMasterResponse "ok") = true)
    (hCfg : bsonLookup env.isMasterResponse "configsvr" = some (.int n))
    (h0 : n ≠ 0) (h1 : n ≠ 1) :
    (onCreate hook env c).result = some (.protocolViolation 28785 n) ∧
    (onCreate hook env c).triggerCalls = [] := by
  cases hSh : hook.shardedConnections <;>
    simp [onCreate, masterProbe, modeCheckAndTrigger, bsonExtractIntegerField,
          hAuth, hT, hOk, hCfg, h0, h1, hSh]

/-- Witness for C5 at a concrete hook, environment and connection, with
`configsvr = 7`. -/
theorem onCreate_configsvr_invalid_aborts_witness :
    (onCreate { shardedConnections := true } (envOkWith respCfg7 0) conn0).result =
      some (.protocolViolation 28785 7) ∧
    (onCreate { shardedConnections := true } (envOkWith respCfg7 0) conn0).triggerCalls = [] :=
  onCreate_configsvr_invalid_aborts { shardedConnections := true }
    (envOkWith respCfg7 0) conn0 7 rfl rfl rfl rfl
    (by decide) (by decide)

end ShardingHook

namespace ShardingHook

/-- C2: whenever `onCreate` succeeds, the request-metadata writer
registration count rises by exactly one regardless of the
`ShardedConnectionsFlag`, and the reply-metadata reader registration
count rises by exactly one if and only if the flag captured at hook
construction is true (when it is false the count is unchanged). -/
theorem onCreate_success_installs_metadata_hooks (hook : Hook) (env : Env)
    (c : ConnState) (hOk : (onCreate hook env c).result = none) :
    (onCreate hook env c).conn.requestWritersInstalled =
      c.requestWritersInstalled + 1 ∧
    ((onCreate hook env c).conn.replyReadersInstalled =
        c.replyReadersInstalled + 1 ↔ hook.shardedConnections = true) ∧
    (hook.shardedConnections = false →
      (onCreate hook env c).conn.replyReadersInstalled =
        c.replyReadersInstalled) := by
  cases hAuth : (env.authEnabled && !env.authSucceeds) with
  | true => exact absurd hOk (by simp [onCreate, hAuth])
  | false =>
    cases hSh : hook.shardedConnections <;> cases hT : c.connType <;>
      simp [onCreate, hAuth, hSh, hT]

/-- Witness for C2 at a concrete hook, environment and connection. -/
theorem onCreate_success_installs_metadata_hooks_witness :
    (onCreate { shardedConnections := true } (envOkWith respNoCfg 0)
        conn0).conn.requestWritersInstalled =
      conn0.requestWritersInstalled + 1 ∧
    ((onCreate { shardedConnections := true } (envOkWith respNoCfg 0)
          conn0).conn.replyReadersInstalled =
        conn0.replyReadersInstalled + 1 ↔
      ({ shardedConnections := true } : Hook).shardedConnections = true) ∧
    (({ shardedConnections := true } : Hook).shardedConnections = false →
      (onCreate { shardedConnections := true } (envOkWith respNoCfg 0)
          conn0).conn.replyReadersInstalled = conn0.replyReadersInstalled) :=
  onCreate_success_installs_metadata_hooks { shardedConnections := true }
    (envOkWith respNoCfg 0) conn0 rfl

/-- C6 counterexample: with the hook constructed for unsharded
operation (`ShardedConnectionsFlag` false), `onDestroy` on a
versionable connection leaves its cached shard version in place, so the
version is not cleared "regardless of the hook's
ShardedConnectionsFlag" as the claim states. -/
theorem onDestroy_unsharded_keeps_version :
    conn0.versionable = true ∧
    conn0.shardVersion = some 5 ∧
    onDestroy { shardedConnections := false } conn0 = .ok conn0 :=
  ⟨rfl, rfl, rfl⟩

/-- C6 amended: for every versionable connection, when the hook was
constructed with `ShardedConnectionsFlag` true, `onDestroy` clears the
cached shard version — both on an arbitrary connection state and on the
state left by any prior `onCreate` (whatever its outcome). -/
theorem onDestroy_versionable_clears (hook : Hook) (env : Env) (c : ConnState)
    (hV : c.versionable = true) (hSh : hook.shardedConnections = true) :
    onDestroy hook c = .ok { c with shardVersion := none } ∧
    onDestroy hook ((onCreate hook env c).conn) =
      .ok { (onCreate hook env c).conn with shardVersion := none } := by
  have hPres : ((onCreate hook env c).conn).versionable = true := by
    cases hAuth : (env.authEnabled && !env.authSucceeds) <;>
      cases hT : c.connType <;>
        simp [onCreate, hAuth, hSh, hT, hV]
  exact ⟨by simp [onDestroy, hSh, hV], by simp [onDestroy, hSh, hPres]⟩

/-- Witness for the amended C6 at a concrete hook, environment and
connection. -/
theorem onDestroy_versionable_clears_witness :
    onDestroy { shardedConnections := true } conn0 =
      .ok { conn0 with shardVersion := none } ∧
    onDestroy { shardedConnections := true }
        ((onCreate { shardedConnections := true } envAuthFail conn0).conn) =
      .ok { (onCreate { shardedConnections := true } envAuthFail conn0).conn
              with shardVersion := none } :=
  onDestroy_versionable_clears { shardedConnections := true } envAuthFail conn0
    rfl rfl

/-- C7: `onDestroy` and `onRelease` never surface an error to the
caller — for every hook and connection state both return an `ok`
result.  Their collaborators (`resetShardVersionCB`, `reset`) are
modelled per the spec's interface list as total, so the bodies contain
no throw site at all. -/
theorem onDestroy_onRelease_never_error (hook : Hook) (c : ConnState) :
    (∃ c2, onDestroy hook c = .ok c2) ∧ ∃ c2, onRelease c = .ok c2 :=
  ⟨⟨_, rfl⟩, ⟨_, rfl⟩⟩

/-- C8: for every single-node (`MASTER`) connection that passes the
authentication gate, when the probe command fails (its result is not
truthy, which is exactly when `runCommand` reports failure), `onCreate`
aborts with the error status extracted from that command result, and
the catalog-manager trigger is not invoked. -/
theorem onCreate_probe_failure_aborts (hook : Hook) (env : Env) (c : ConnState)
    (hAuth : (env.authEnabled && !env.authSucceeds) = false)
    (hT : c.connType = .MASTER)
    (hFail : trueValue (bsonLookup env.isMasterResponse "ok") = false) :
    ∃ code, getStatusFromCommandResult env.isMasterResponse = .error code ∧
      (onCreate hook env c).result = some (.probeCommandFailure code) ∧
      (onCreate hook env c).triggerCalls = [] := by
  obtain ⟨code, hCode⟩ :
      ∃ code, getStatusFromCommandResult env.isMasterResponse = .error code := by
    unfold getStatusFromCommandResult
    cases hL : bsonLookup env.isMasterResponse "ok" with
    | none => exact ⟨_, rfl⟩
    | some v =>
      rw [hL] at hFail
      refine ⟨(match bsonLookup env.isMasterResponse "code" with
               | some (.int n) => if n = 0 then .unknownError else .fromResponse n
               | _ => .unknownError), ?_⟩
      simp [hFail]
  refine ⟨code, hCode, ?_, ?_⟩ <;>
    cases hSh : hook.shardedConnections <;>
      simp [onCreate, masterProbe, hAuth, hT, hFail, hCode, hSh]

/-- Witness for C8 at a concrete hook, environment and connection. -/
theorem onCreate_probe_failure_aborts_witness :
    ∃ code, getStatusFromCommandResult (envOkWith respFail 0).isMasterResponse =
        .error code ∧
      (onCreate { shardedConnections := true } (envOkWith respFail 0)
          conn0).result = some (.probeCommandFailure code) ∧
      (onCreate { shardedConnections := true } (envOkWith respFail 0)
          conn0).triggerCalls = [] :=
  onCreate_probe_failure_aborts { shardedConnections := true }
    (envOkWith respFail 0) conn0 rfl rfl rfl

/-- C9: `onRelease` never errors, its effect (`resetConn`) is
idempotent, one call moves exactly the held secondary sub-connections
to the released list and empties the held list (so no sub-connection is
ever released twice), a connection holding no sub-connections is left
unchanged, and the behaviour is uniform in the connection kind. -/
theorem onRelease_idempotent_no_double_release (c : ConnState) (t : ConnType) :
    onRelease c = .ok (resetConn c) ∧
    resetConn (resetConn c) = resetConn c ∧
    (resetConn c).releasedSecondaries =
      c.releasedSecondaries ++ c.heldSecondaries ∧
    (resetConn c).heldSecondaries = [] ∧
    resetConn { c with heldSecondaries := [] } =
      { c with heldSecondaries := [] } ∧
    resetConn { c with connType := t } = { resetConn c with connType := t } := by
  simp [onRelease, resetConn]

/-- C10 (code bug): with a probe response whose `configsvr` field is a
string, integer extraction fails with `TypeMismatch` — not `NoSuchKey`
— yet `onCreate` neither returns early nor aborts before reading
`configServerModeNumber`: the C++ local was never assigned, and the
outcome depends on its indeterminate value.  With indeterminate value 7
the call aborts on the 0/1 assertion (reading the unassigned variable);
with indeterminate value 0 it completes admission and invokes the
catalog-manager trigger with a mode derived from the unassigned
variable. -/
theorem onCreate_configsvr_type_mismatch_reads_uninitialized :
    bsonExtractIntegerField respCfgStr "configsvr" = .error .typeMismatch ∧
    (onCreate { shardedConnections := true } (envOkWith respCfgStr 7)
        conn0).result = some (.protocolViolation 28785 7) ∧
    (onCreate { shardedConnections := true } (envOkWith respCfgStr 0)
        conn0).triggerCalls =
      [{ mode := .SCCC, replicaSetName := "", hostAndPort := conn0.hostAndPort }] ∧
    (onCreate { shardedConnections := true } (envOkWith respCfgStr 0)
        conn0).result = none :=
  ⟨rfl, rfl, rfl, rfl⟩

end ShardingHook
